import Mathlib

/-!
Shallow embedding of the Study Buddy backend (`convex/chat.ts` together with
the schema in `convex/schema.ts`).

Modelling conventions:
* Document ids are natural numbers handed out by a per-store counter
  (`nextId`), mirroring the opaque unique ids of the platform.
* Each table is a list of `(id, record)` pairs kept in insertion order.  The
  platform's implicit `_creationTime` is strictly increasing with insertion,
  so an index scan in ascending index order over rows with an equal indexed
  field coincides with list order, and a descending scan is its reverse.
* `Date.now()` is modelled by an explicit `now : Nat` argument passed to each
  handler invocation; clock monotonicity is a hypothesis where a claim needs it.
* A handler that can `throw` returns `Except Err _`; the two thrown messages
  of the source ("Not authenticated", "Conversation not found") become the two
  constructors of `Err`.
* The outbound OpenAI call is a parameter
  `provider : Request → Except Thrown (Option String)`: it either returns
  `choices[0]?.message?.content` (which may be absent) or throws.  A JS
  `catch` receives either an `Error` with a message or some non-`Error`
  value, hence the two constructors of `Thrown`.
* The scheduler (`ctx.scheduler.runAfter(0, internal.chat.generateAIResponse,
  ...)`) is modelled by a queue `jobs` of conversation ids of pending
  generation jobs.
-/

namespace StudyBuddy

/-- Message role tag; the schema allows exactly the literals
"user" and "assistant". -/
inductive Role where
  | user
  | assistant
deriving DecidableEq, Repr

/-- A row of the `conversations` table (schema: `userId`, `title`,
`lastMessageAt`). -/
structure Conversation where
  userId : Nat
  title : String
  lastMessageAt : Nat
deriving DecidableEq, Repr

/-- A row of the `messages` table (schema: `conversationId`, `userId`,
`content`, `role`, `timestamp`). -/
structure Message where
  conversationId : Nat
  userId : Nat
  content : String
  role : Role
  timestamp : Nat
deriving DecidableEq, Repr

/-- The persistent store: both tables in insertion order, the id counter, and
the queue of scheduled `generateAIResponse` jobs. -/
structure Store where
  conversations : List (Nat × Conversation)
  messages : List (Nat × Message)
  nextId : Nat
  jobs : List Nat
deriving DecidableEq, Repr

/-- Errors thrown by the handlers. -/
inductive Err where
  | notAuthenticated
  | conversationNotFound
deriving DecidableEq, Repr

/-- The message string carried by a thrown `Err`, as a JS `catch` would see
it in `error.message`. -/
def Err.message : Err → String
  | .notAuthenticated => "Not authenticated"
  | .conversationNotFound => "Conversation not found"

/-- `ctx.db.get` on the `conversations` table. -/
def Store.getConv (st : Store) (cid : Nat) : Option Conversation :=
  (st.conversations.find? (fun p => p.1 == cid)).map (fun p => p.2)

/-- `ctx.db.insert("conversations", ...)`: returns the new id and store. -/
def Store.insertConversation (st : Store) (c : Conversation) : Nat × Store :=
  (st.nextId,
    { st with
        conversations := st.conversations ++ [(st.nextId, c)]
        nextId := st.nextId + 1 })

/-- `ctx.db.insert("messages", ...)`: returns the new id and store. -/
def Store.insertMessage (st : Store) (m : Message) : Nat × Store :=
  (st.nextId,
    { st with
        messages := st.messages ++ [(st.nextId, m)]
        nextId := st.nextId + 1 })

/-- `ctx.db.patch(conversationId, { lastMessageAt: t })`. -/
def Store.patchLastMessageAt (st : Store) (cid : Nat) (t : Nat) : Store :=
  { st with
      conversations := st.conversations.map
        (fun p => if p.1 == cid then (p.1, { p.2 with lastMessageAt := t }) else p) }

/-- `getConversations`: auth check, then an indexed scan
`by_user` with `.order("desc")`.  The index key is `(userId, _creationTime)`,
so among the caller-owned rows the scan runs in descending creation order,
i.e. the reverse of insertion order. -/
def getConversations (st : Store) (auth : Option Nat) :
    Except Err (List (Nat × Conversation)) :=
  match auth with
  | none => .error .notAuthenticated
  | some userId =>
      .ok ((st.conversations.filter (fun p => p.2.userId == userId)).reverse)

/-- `getMessages`: auth check, ownership check, then an ascending indexed
scan `by_conversation` (ascending creation order = insertion order). -/
def getMessages (st : Store) (auth : Option Nat) (cid : Nat) :
    Except Err (List (Nat × Message)) :=
  match auth with
  | none => .error .notAuthenticated
  | some userId =>
      match st.getConv cid with
      | none => .error .conversationNotFound
      | some conversation =>
          if conversation.userId == userId then
            .ok (st.messages.filter (fun p => p.2.conversationId == cid))
          else .error .conversationNotFound

/-- `getMessagesForAI` (internal query): the same ascending scan with no auth
or ownership check. -/
def getMessagesForAI (st : Store) (cid : Nat) : List (Nat × Message) :=
  st.messages.filter (fun p => p.2.conversationId == cid)

/-- `createConversation`: auth check, then insert a conversation owned by the
caller with `lastMessageAt := Date.now()`; returns the new id. -/
def createConversation (st : Store) (auth : Option Nat) (title : String)
    (now : Nat) : Except Err (Nat × Store) :=
  match auth with
  | none => .error .notAuthenticated
  | some userId =>
      .ok (st.insertConversation
        { userId := userId, title := title, lastMessageAt := now })

/-- `sendMessage`: auth check, ownership check, insert the user message,
patch `lastMessageAt`, and schedule `generateAIResponse`. -/
def sendMessage (st : Store) (auth : Option Nat) (cid : Nat) (content : String)
    (now : Nat) : Except Err Store :=
  match auth with
  | none => .error .notAuthenticated
  | some userId =>
      match st.getConv cid with
      | none => .error .conversationNotFound
      | some conversation =>
          if conversation.userId == userId then
            let st1 := (st.insertMessage
              { conversationId := cid, userId := userId, content := content,
                role := .user, timestamp := now }).2
            let st2 := st1.patchLastMessageAt cid now
            .ok { st2 with jobs := st2.jobs ++ [cid] }
          else .error .conversationNotFound

/-- One `{ role, content }` pair of the outbound completion request. -/
structure ProviderMessage where
  role : String
  content : String
deriving DecidableEq, Repr

/-- The outbound completion request
(`openai.chat.completions.create({...})`). -/
structure Request where
  model : String
  messages : List ProviderMessage
  maxTokens : Nat
  temperature : ℚ
  presencePenalty : ℚ
  frequencyPenalty : ℚ
deriving DecidableEq, Repr

/-- What a JS `catch (error)` can receive from the provider call: an `Error`
carrying a message, or any non-`Error` value. -/
inductive Thrown where
  | jsError (msg : String)
  | nonError
deriving DecidableEq, Repr

/-- The provider role string of a stored message
(`msg.role as "user" | "assistant"`). -/
def roleString : Role → String
  | .user => "user"
  | .assistant => "assistant"

/-- The fixed system instruction of `generateAIResponse` (verbatim). -/
def systemPrompt : String :=
  "You are Study Buddy, an expert AI tutor specifically designed to help Bachelor of Arts (B.A.) students excel in their academic journey. You have extensive knowledge in:\n"
  ++ "\n"
  ++ "**Core B.A. Subjects:**\n"
  ++ "- Literature (English, Comparative, World Literature)\n"
  ++ "- History (World, American, European, Ancient)\n"
  ++ "- Philosophy (Ethics, Logic, Political Philosophy)\n"
  ++ "- Psychology (Cognitive, Social, Developmental)\n"
  ++ "- Sociology (Social Theory, Research Methods)\n"
  ++ "- Political Science (Government, International Relations)\n"
  ++ "- Anthropology (Cultural, Social)\n"
  ++ "- Art History and Fine Arts\n"
  ++ "- Languages and Linguistics\n"
  ++ "- Religious Studies\n"
  ++ "- Communication Studies\n"
  ++ "\n"
  ++ "**Your Expertise Includes:**\n"
  ++ "- Essay writing and structure (thesis development, argumentation, citations)\n"
  ++ "- Research methodologies and source evaluation\n"
  ++ "- Critical thinking and analysis techniques\n"
  ++ "- Study strategies and time management\n"
  ++ "- Exam preparation and test-taking strategies\n"
  ++ "- Academic writing styles (MLA, APA, Chicago)\n"
  ++ "- Discussion facilitation and debate preparation\n"
  ++ "\n"
  ++ "**Your Teaching Style:**\n"
  ++ "- Break complex concepts into digestible parts\n"
  ++ "- Use examples and analogies relevant to undergraduate experience\n"
  ++ "- Provide step-by-step guidance\n"
  ++ "- Encourage critical thinking with thought-provoking questions\n"
  ++ "- Offer multiple perspectives on topics\n"
  ++ "- Be supportive and motivating\n"
  ++ "- Adapt explanations to different learning styles\n"
  ++ "\n"
  ++ "**Response Guidelines:**\n"
  ++ "- Keep responses comprehensive but accessible\n"
  ++ "- Use bullet points and clear structure when helpful\n"
  ++ "- Provide specific examples and case studies\n"
  ++ "- Suggest additional resources when appropriate\n"
  ++ "- Ask follow-up questions to deepen understanding\n"
  ++ "- Maintain an encouraging, professional tone\n"
  ++ "\n"
  ++ "Always tailor your responses to undergraduate-level understanding while challenging students to think critically."

/-- The request `generateAIResponse` builds from the conversation history:
the system instruction first, then every stored message with role and content
unchanged, under the fixed generation parameters of the source. -/
def buildRequest (history : List Message) : Request :=
  { model := "gpt-4.1-nano"
    messages :=
      { role := "system", content := systemPrompt } ::
        history.map (fun m => { role := roleString m.role, content := m.content })
    maxTokens := 1500
    temperature := 7 / 10
    presencePenalty := 1 / 10
    frequencyPenalty := 1 / 10 }

/-- JS `String.prototype.includes`. -/
def strContains (s pat : String) : Bool :=
  decide (pat.toList <:+: s.toList)

/-- The apologetic text chosen in the `catch` block of `generateAIResponse`
by keyword match on the caught value. -/
def providerFailureText : Thrown → String
  | .jsError msg =>
      if strContains msg "rate limit" then
        "I apologize, but I\x27m experiencing technical difficulties right now. "
          ++ "I\x27m currently handling many requests. Please try again in a moment."
      else if strContains msg "network" then
        "I apologize, but I\x27m experiencing technical difficulties right now. "
          ++ "There seems to be a connection issue. Please check your internet and try again."
      else
        "I apologize, but I\x27m experiencing technical difficulties right now. "
          ++ "Please try rephrasing your question or try again in a few moments."
  | .nonError =>
      "I apologize, but I\x27m experiencing technical difficulties right now. "
        ++ "Please try again in a moment, and I\x27ll do my best to help you with your studies."

/-- `saveAIMessage` (internal mutation): look up the conversation to copy its
`userId`, insert the assistant message, patch `lastMessageAt`. -/
def saveAIMessage (st : Store) (cid : Nat) (content : String) (now : Nat) :
    Except Err Store :=
  match st.getConv cid with
  | none => .error .conversationNotFound
  | some conversation =>
      let st1 := (st.insertMessage
        { conversationId := cid, userId := conversation.userId,
          content := content, role := .assistant, timestamp := now }).2
      .ok (st1.patchLastMessageAt cid now)

/-- `generateAIResponse` (internal action).  Inside the `try`: fetch the
history, call the provider on `buildRequest`, treat a missing or empty
(falsy) `choices[0]?.message?.content` as `throw new Error("No response from
AI")`, and persist the text via `saveAIMessage` — whose own throw is also
caught by the surrounding `catch`.  The `catch` persists the apologetic text
instead; only a throw out of that second `saveAIMessage` escapes. -/
def generateAIResponse (st : Store) (cid : Nat)
    (provider : Request → Except Thrown (Option String)) (now : Nat) :
    Except Err Store :=
  let history := (getMessagesForAI st cid).map (fun p => p.2)
  let tried : Except Thrown Store :=
    match provider (buildRequest history) with
    | .error t => .error t
    | .ok none => .error (.jsError "No response from AI")
    | .ok (some aiResponse) =>
        if aiResponse = "" then .error (.jsError "No response from AI")
        else
          match saveAIMessage st cid aiResponse now with
          | .error e => .error (.jsError e.message)
          | .ok st1 => .ok st1
  match tried with
  | .ok st1 => .ok st1
  | .error t => saveAIMessage st cid (providerFailureText t) now

/-- One study tip of `getStudyTips`. -/
structure StudyTip where
  title : String
  description : String
  category : String
deriving DecidableEq, Repr

/-- The fixed tip list returned by `getStudyTips` (verbatim). -/
def generalTips : List StudyTip :=
  [ { title := "Active Reading Strategy"
      description := "Use the SQ3R method: Survey, Question, Read, Recite, Review"
      category := "Reading" },
    { title := "Essay Structure"
      description := "Follow the classic 5-paragraph structure: Introduction, 3 body paragraphs, conclusion"
      category := "Writing" },
    { title := "Time Management"
      description := "Use the Pomodoro Technique: 25 minutes focused work, 5-minute break"
      category := "Study Skills" },
    { title := "Critical Thinking"
      description := "Always ask: What? So what? Now what? to analyze any topic deeply"
      category := "Analysis" } ]

/-- `getStudyTips`: auth check, then the fixed list (the optional `subject`
argument is accepted but unused by the source). -/
def getStudyTips (auth : Option Nat) (_subject : Option String) :
    Except Err (List StudyTip) :=
  match auth with
  | none => .error .notAuthenticated
  | some _ => .ok generalTips

/-- One resource group of `getAcademicResources`. -/
structure ResourceGroup where
  title : String
  resources : List String
deriving DecidableEq, Repr

/-- The fixed list returned by `getAcademicResources` (verbatim). -/
def academicResources : List ResourceGroup :=
  [ { title := "Citation Guides"
      resources :=
        [ "MLA Style Guide - For literature and humanities",
          "APA Style Guide - For psychology and social sciences",
          "Chicago Manual of Style - For history and fine arts" ] },
    { title := "Research Databases"
      resources :=
        [ "JSTOR - Academic articles and books",
          "Project MUSE - Humanities and social sciences",
          "Google Scholar - Free academic search engine" ] },
    { title := "Writing Centers"
      resources :=
        [ "Purdue OWL - Comprehensive writing resources",
          "University Writing Centers - Local tutoring support",
          "Grammarly - Grammar and style checking" ] } ]

/-- `getAcademicResources`: auth check, then the fixed list. -/
def getAcademicResources (auth : Option Nat) :
    Except Err (List ResourceGroup) :=
  match auth with
  | none => .error .notAuthenticated
  | some _ => .ok academicResources

/-- The ownership invariant on messages: each message's parent conversation
exists and owns the message. -/
def MessagesWellFormed (st : Store) : Prop :=
  ∀ p ∈ st.messages,
    ∃ conv, st.getConv p.2.conversationId = some conv ∧ p.2.userId = conv.userId

theorem getConv_patch (st : Store) (cid cid' t : Nat) :
    (st.patchLastMessageAt cid t).getConv cid'
      = if cid' = cid
        then (st.getConv cid').map (fun c => { c with lastMessageAt := t })
        else st.getConv cid' := by
  unfold Store.patchLastMessageAt Store.getConv
  simp only [List.find?_map]
  have hpred : ((fun p : Nat × Conversation => p.1 == cid') ∘
      (fun p : Nat × Conversation =>
        if p.1 == cid then (p.1, { p.2 with lastMessageAt := t }) else p))
      = fun p : Nat × Conversation => p.1 == cid' := by
    funext p
    by_cases h : p.1 == cid <;> simp [Function.comp, h]
  rw [hpred]
  cases hfind : st.conversations.find? (fun p => p.1 == cid') with
  | none => by_cases hc : cid' = cid <;> simp [hc]
  | some p =>
      have hp : p.1 = cid' := by simpa using List.find?_some hfind
      by_cases hc : cid' = cid
      · subst hc
        simp [hp]
      · simp [hp, hc]

theorem getConv_insertMessage (st : Store) (m : Message) (cid : Nat) :
    (st.insertMessage m).2.getConv cid = st.getConv cid := rfl

theorem messages_patch (st : Store) (cid t : Nat) :
    (st.patchLastMessageAt cid t).messages = st.messages := rfl

theorem conversations_fst_patch (st : Store) (cid t : Nat) :
    (st.patchLastMessageAt cid t).conversations.map Prod.fst
      = st.conversations.map Prod.fst := by
  unfold Store.patchLastMessageAt
  simp only [List.map_map]
  congr 1
  funext p
  show (if p.1 == cid then (p.1, { p.2 with lastMessageAt := t }) else p).1 = p.1
  split <;> rfl

theorem getConv_insertConversation (st : Store) (c : Conversation) (cid : Nat)
    (v : Conversation) (h : st.getConv cid = some v) :
    (st.insertConversation c).2.getConv cid = some v := by
  unfold Store.getConv Store.insertConversation at *
  cases hfind : st.conversations.find? (fun p => p.1 == cid) with
  | none => rw [hfind] at h; simp at h
  | some p =>
      rw [hfind] at h
      simp only [List.find?_append, hfind]
      simpa using h

theorem saveAIMessage_ok (st : Store) (cid : Nat) (content : String) (now : Nat)
    (conv : Conversation) (hconv : st.getConv cid = some conv) :
    ∃ st', saveAIMessage st cid content now = .ok st'
      ∧ st'.messages = st.messages ++ [(st.nextId,
          { conversationId := cid, userId := conv.userId, content := content,
            role := .assistant, timestamp := now })]
      ∧ st'.nextId = st.nextId + 1
      ∧ st'.jobs = st.jobs
      ∧ st'.conversations.map Prod.fst = st.conversations.map Prod.fst
      ∧ ∀ cid', st'.getConv cid'
          = if cid' = cid
            then (st.getConv cid').map (fun c => { c with lastMessageAt := now })
            else st.getConv cid' := by
  unfold saveAIMessage
  rw [hconv]
  refine ⟨_, rfl, rfl, rfl, rfl, conversations_fst_patch _ cid now, ?_⟩
  intro cid'
  exact getConv_patch _ cid cid' now

theorem saveAIMessage_ok_inv (st : Store) (cid : Nat) (content : String)
    (now : Nat) (st' : Store) (h : saveAIMessage st cid content now = .ok st') :
    ∃ conv, st.getConv cid = some conv
      ∧ st' = (st.insertMessage
          { conversationId := cid, userId := conv.userId, content := content,
            role := .assistant, timestamp := now }).2.patchLastMessageAt cid now := by
  unfold saveAIMessage at h
  cases hconv : st.getConv cid with
  | none => rw [hconv] at h; exact absurd h (by simp)
  | some conv =>
      rw [hconv] at h
      simp only [Except.ok.injEq] at h
      exact ⟨conv, rfl, h.symm⟩

theorem sendMessage_ok (st : Store) (u cid : Nat) (content : String) (now : Nat)
    (conv : Conversation) (hconv : st.getConv cid = some conv)
    (hown : conv.userId = u) :
    ∃ st', sendMessage st (some u) cid content now = .ok st'
      ∧ st'.messages = st.messages ++ [(st.nextId,
          { conversationId := cid, userId := u, content := content,
            role := .user, timestamp := now })]
      ∧ st'.nextId = st.nextId + 1
      ∧ st'.jobs = st.jobs ++ [cid]
      ∧ st'.conversations.map Prod.fst = st.conversations.map Prod.fst
      ∧ ∀ cid', st'.getConv cid'
          = if cid' = cid
            then (st.getConv cid').map (fun c => { c with lastMessageAt := now })
            else st.getConv cid' := by
  have hb : (conv.userId == u) = true := by simp [hown]
  unfold sendMessage
  simp only [hconv, hb, if_true]
  refine ⟨_, rfl, rfl, rfl, rfl, conversations_fst_patch _ cid now, ?_⟩
  intro cid'
  exact getConv_patch _ cid cid' now

theorem sendMessage_ok_inv (st : Store) (auth : Option Nat) (cid : Nat)
    (content : String) (now : Nat) (st' : Store)
    (h : sendMessage st auth cid content now = .ok st') :
    ∃ u conv, auth = some u ∧ st.getConv cid = some conv ∧ conv.userId = u
      ∧ st' = { ((st.insertMessage
            { conversationId := cid, userId := u, content := content,
              role := .user, timestamp := now }).2.patchLastMessageAt cid now) with
            jobs := st.jobs ++ [cid] } := by
  unfold sendMessage at h
  cases auth with
  | none => exact absurd h (by simp)
  | some u =>
      cases hconv : st.getConv cid with
      | none => rw [hconv] at h; exact absurd h (by simp)
      | some conv =>
          rw [hconv] at h
          by_cases hu : conv.userId = u
          · refine ⟨u, conv, rfl, rfl, hu, ?_⟩
            simp only [hu, beq_self_eq_true, if_true, Except.ok.injEq] at h
            exact h.symm
          · have hb : (conv.userId == u) = false := by simp [hu]
            simp [hb] at h

theorem generateAIResponse_ok_inv (st : Store) (cid : Nat)
    (provider : Request → Except Thrown (Option String)) (now : Nat) (st' : Store)
    (h : generateAIResponse st cid provider now = .ok st') :
    ∃ content, saveAIMessage st cid content now = .ok st' := by
  unfold generateAIResponse at h
  dsimp only at h
  cases hp : provider (buildRequest ((getMessagesForAI st cid).map (fun p => p.2))) with
  | error t =>
      rw [hp] at h
      exact ⟨providerFailureText t, h⟩
  | ok content? =>
      rw [hp] at h
      cases content? with
      | none => exact ⟨providerFailureText (.jsError "No response from AI"), h⟩
      | some aiResponse =>
          by_cases he : aiResponse = ""
          · subst he
            exact ⟨providerFailureText (.jsError "No response from AI"), h⟩
          · dsimp only at h
            rw [if_neg he] at h
            cases hsave : saveAIMessage st cid aiResponse now with
            | error e =>
                rw [hsave] at h
                exact ⟨providerFailureText (.jsError e.message), h⟩
            | ok st1 =>
                rw [hsave] at h
                have h' : (Except.ok st1 : Except Err Store) = Except.ok st' := h
                simp only [Except.ok.injEq] at h'
                exact ⟨aiResponse, h' ▸ hsave⟩

theorem wf_insert_patch (st : Store) (cid u : Nat) (content : String) (r : Role)
    (now : Nat) (conv : Conversation) (hconv : st.getConv cid = some conv)
    (huser : u = conv.userId) (hwf : MessagesWellFormed st) :
    MessagesWellFormed ((st.insertMessage
      { conversationId := cid, userId := u, content := content,
        role := r, timestamp := now }).2.patchLastMessageAt cid now) := by
  intro p hp
  have hmem : p ∈ st.messages ++ [(st.nextId,
      { conversationId := cid, userId := u, content := content,
        role := r, timestamp := now })] := hp
  rw [List.mem_append] at hmem
  have hgc : ∀ cid', ((st.insertMessage
      { conversationId := cid, userId := u, content := content,
        role := r, timestamp := now }).2.patchLastMessageAt cid now).getConv cid'
      = if cid' = cid
        then (st.getConv cid').map (fun c => { c with lastMessageAt := now })
        else st.getConv cid' := fun cid' => getConv_patch _ cid cid' now
  cases hmem with
  | inl hold =>
      obtain ⟨c0, hc0, hu0⟩ := hwf p hold
      by_cases hx : p.2.conversationId = cid
      · refine ⟨{ c0 with lastMessageAt := now }, ?_, hu0⟩
        rw [hgc, if_pos hx, hc0]
        rfl
      · exact ⟨c0, by rw [hgc, if_neg hx]; exact hc0, hu0⟩
  | inr hnew =>
      have hpeq : p = (st.nextId,
          { conversationId := cid, userId := u, content := content,
            role := r, timestamp := now }) := by simpa using hnew
      subst hpeq
      refine ⟨{ conv with lastMessageAt := now }, ?_, huser⟩
      simp [hgc, hconv]

theorem frame_insert_patch (st : Store) (m : Message) (cid now : Nat)
    (cid' : Nat) (c : Conversation) (h : st.getConv cid' = some c) :
    ∃ c', ((st.insertMessage m).2.patchLastMessageAt cid now).getConv cid' = some c'
      ∧ c'.userId = c.userId ∧ c'.title = c.title := by
  rw [getConv_patch]
  by_cases hx : cid' = cid
  · rw [if_pos hx]
    rw [getConv_insertMessage] at *
    exact ⟨{ c with lastMessageAt := now }, by rw [h]; rfl, rfl, rfl⟩
  · rw [if_neg hx]
    exact ⟨c, h, rfl, rfl⟩

theorem providerFailureText_ne_empty (t : Thrown) : providerFailureText t ≠ "" := by
  cases t with
  | jsError msg =>
      simp only [providerFailureText]
      by_cases h1 : strContains msg "rate limit" = true
      · rw [if_pos h1]; decide
      · rw [if_neg h1]
        by_cases h2 : strContains msg "network" = true
        · rw [if_pos h2]; decide
        · rw [if_neg h2]; decide
  | nonError => decide

/-- A one-conversation store used to instantiate the general theorems. -/
def demoConv : Conversation :=
  { userId := 7, title := "Essay Help", lastMessageAt := 1 }

/-- A store holding `demoConv` under id 0 and no messages. -/
def demoStore : Store :=
  { conversations := [(0, demoConv)], messages := [], nextId := 1, jobs := [] }

/-- Intermediate store of the C1 run: one conversation created at time 1. -/
def c1StoreA : Store :=
  { conversations := [(0, { userId := 0, title := "Essay Help", lastMessageAt := 1 })],
    messages := [], nextId := 1, jobs := [] }

/-- Intermediate store of the C1 run: a second conversation created at time 2. -/
def c1StoreB : Store :=
  { conversations :=
      [(0, { userId := 0, title := "Essay Help", lastMessageAt := 1 }),
       (1, { userId := 0, title := "History Help", lastMessageAt := 2 })],
    messages := [], nextId := 2, jobs := [] }

/-- Final store of the C1 run: a message sent at time 3 into the first
(older) conversation, which therefore now has the newest activity. -/
def c1StoreC : Store :=
  { conversations :=
      [(0, { userId := 0, title := "Essay Help", lastMessageAt := 3 }),
       (1, { userId := 0, title := "History Help", lastMessageAt := 2 })],
    messages := [(2, { conversationId := 0, userId := 0, content := "hello",
                       role := .user, timestamp := 3 })],
    nextId := 3, jobs := [0] }

/-- What `getConversations` actually returns on `c1StoreC`. -/
def c1Listing : List (Nat × Conversation) :=
  [(1, { userId := 0, title := "History Help", lastMessageAt := 2 }),
   (0, { userId := 0, title := "Essay Help", lastMessageAt := 3 })]

/-- C1 counterexample: after creating two conversations and then sending a
message into the older one, the older conversation has the strictly newest
`lastMessageAt` (3 vs 2) yet `getConversations` lists it last, because the
`by_user` index scan runs in descending creation order, not descending
`lastMessageAt`.  The returned `lastMessageAt` sequence `[2, 3]` is not
descending, refuting the claimed sort order. -/
theorem getConversations_not_sorted_by_lastMessageAt :
    createConversation { conversations := [], messages := [], nextId := 0, jobs := [] }
        (some 0) "Essay Help" 1 = .ok (0, c1StoreA)
    ∧ createConversation c1StoreA (some 0) "History Help" 2 = .ok (1, c1StoreB)
    ∧ sendMessage c1StoreB (some 0) 0 "hello" 3 = .ok c1StoreC
    ∧ getConversations c1StoreC (some 0) = .ok c1Listing
    ∧ c1Listing.map (fun p => p.2.lastMessageAt) = [2, 3]
    ∧ ¬ List.Sorted (fun a b => b ≤ a) (c1Listing.map (fun p => p.2.lastMessageAt)) := by
  refine ⟨rfl, rfl, rfl, rfl, rfl, ?_⟩
  decide

/-- C1 (amended): for every authenticated user, `getConversations` returns
exactly the set of conversations whose owner field equals that user —
conversations owned by any other user never appear — and lists them in
descending creation order (the reverse of the stored order), not in
descending `lastMessageAt` order. -/
theorem getConversations_owned_set (st : Store) (u : Nat) :
    ∃ l, getConversations st (some u) = .ok l
      ∧ (∀ p, p ∈ l ↔ p ∈ st.conversations ∧ p.2.userId = u)
      ∧ l.reverse.Sublist st.conversations := by
  refine ⟨_, rfl, ?_, ?_⟩
  · intro p
    simp [getConversations, List.mem_reverse, List.mem_filter]
  · rw [List.reverse_reverse]
    exact List.filter_sublist _

/-- C6: `getMessages` fails with `Unauthenticated` when no user is resolved,
fails with `NotFound` when the conversation is missing or owned by someone
else, and otherwise returns exactly the conversation's messages in stored
(oldest-first) order. -/
theorem getMessages_spec (st : Store) (u cid : Nat) :
    getMessages st none cid = .error Err.notAuthenticated
    ∧ (st.getConv cid = none →
        getMessages st (some u) cid = .error Err.conversationNotFound)
    ∧ (∀ conv, st.getConv cid = some conv → conv.userId ≠ u →
        getMessages st (some u) cid = .error Err.conversationNotFound)
    ∧ (∀ conv, st.getConv cid = some conv → conv.userId = u →
        ∃ l, getMessages st (some u) cid = .ok l
          ∧ (∀ p, p ∈ l ↔ p ∈ st.messages ∧ p.2.conversationId = cid)
          ∧ l.Sublist st.messages) := by
  refine ⟨rfl, ?_, ?_, ?_⟩
  · intro h
    simp [getMessages, h]
  · intro conv hconv hu
    simp [getMessages, hconv, hu]
  · intro conv hconv hu
    refine ⟨st.messages.filter (fun p => p.2.conversationId == cid),
      ?_, ?_, List.filter_sublist _⟩
    · simp [getMessages, hconv, hu]
    · intro p
      simp [List.mem_filter]

/-- C6 witness: on the demo store the owner resolves and the message list of
conversation 0 comes back; a stranger (user 8) gets `NotFound`. -/
theorem getMessages_spec_witness :
    getMessages demoStore none 0 = .error Err.notAuthenticated
    ∧ getMessages demoStore (some 8) 0 = .error Err.conversationNotFound
    ∧ ∃ l, getMessages demoStore (some 7) 0 = .ok l
        ∧ (∀ p, p ∈ l ↔ p ∈ demoStore.messages ∧ p.2.conversationId = 0)
        ∧ l.Sublist demoStore.messages := by
  refine ⟨(getMessages_spec demoStore 7 0).1, ?_, ?_⟩
  · exact (getMessages_spec demoStore 8 0).2.2.1 demoConv (by decide) (by decide)
  · exact (getMessages_spec demoStore 7 0).2.2.2 demoConv (by decide) (by decide)

/-- C7: with no resolved user every public access function fails with
`Unauthenticated`; the mutations return no store at all, so nothing is
inserted or patched and no generation job is enqueued. -/
theorem unauthenticated_rejected (st : Store) (cid : Nat)
    (content title : String) (now : Nat) (subject : Option String) :
    getConversations st none = .error Err.notAuthenticated
    ∧ getMessages st none cid = .error Err.notAuthenticated
    ∧ createConversation st none title now = .error Err.notAuthenticated
    ∧ sendMessage st none cid content now = .error Err.notAuthenticated
    ∧ getStudyTips none subject = .error Err.notAuthenticated
    ∧ getAcademicResources none = .error Err.notAuthenticated :=
  ⟨rfl, rfl, rfl, rfl, rfl, rfl⟩

/-- C10: whenever the user-facing `getMessages` succeeds (caller owns the
conversation), it returns exactly the list the auth-bypassing internal
`getMessagesForAI` returns. -/
theorem getMessages_refines_getMessagesForAI (st : Store) (u cid : Nat)
    (conv : Conversation) (hconv : st.getConv cid = some conv)
    (hown : conv.userId = u) :
    getMessages st (some u) cid = .ok (getMessagesForAI st cid) := by
  simp [getMessages, getMessagesForAI, hconv, hown]

/-- C10 witness: the two listings agree on the demo store. -/
theorem getMessages_refines_getMessagesForAI_witness :
    getMessages demoStore (some 7) 0 = .ok (getMessagesForAI demoStore 0) :=
  getMessages_refines_getMessagesForAI demoStore 7 0 demoConv (by decide) (by decide)

/-- C3: a successful Submit appends exactly one user message with the given
content, sets the conversation's `lastMessageAt` to the call time (≥ its
prior value under clock monotonicity), enqueues exactly one generation job
for that conversation, and touches no other conversation; no conversation is
created or deleted. -/
theorem sendMessage_submit_spec (st : Store) (u cid : Nat) (content : String)
    (now : Nat) (conv : Conversation) (hconv : st.getConv cid = some conv)
    (hown : conv.userId = u) (hclock : conv.lastMessageAt ≤ now) :
    ∃ st', sendMessage st (some u) cid content now = .ok st'
      ∧ st'.messages = st.messages ++ [(st.nextId,
          { conversationId := cid, userId := u, content := content,
            role := .user, timestamp := now })]
      ∧ st'.jobs = st.jobs ++ [cid]
      ∧ (∃ conv', st'.getConv cid = some conv'
          ∧ conv'.lastMessageAt = now
          ∧ conv.lastMessageAt ≤ conv'.lastMessageAt
          ∧ conv'.userId = conv.userId ∧ conv'.title = conv.title)
      ∧ (∀ cid', cid' ≠ cid → st'.getConv cid' = st.getConv cid')
      ∧ st'.conversations.map Prod.fst = st.conversations.map Prod.fst := by
  obtain ⟨st', hok, hmsgs, hnext, hjobs, hids, hgc⟩ :=
    sendMessage_ok st u cid content now conv hconv hown
  refine ⟨st', hok, hmsgs, hjobs, ?_, ?_, hids⟩
  · refine ⟨{ conv with lastMessageAt := now }, ?_, rfl, hclock, rfl, rfl⟩
    rw [hgc cid, if_pos rfl, hconv]
    rfl
  · intro cid' hne
    rw [hgc cid', if_neg hne]

/-- C3 witness: Submit on the demo store at time 5 behaves as specified. -/
theorem sendMessage_submit_spec_witness :
    ∃ st', sendMessage demoStore (some 7) 0 "hello" 5 = .ok st'
      ∧ st'.messages = demoStore.messages ++ [(demoStore.nextId,
          { conversationId := 0, userId := 7, content := "hello",
            role := .user, timestamp := 5 })]
      ∧ st'.jobs = demoStore.jobs ++ [0]
      ∧ (∃ conv', st'.getConv 0 = some conv'
          ∧ conv'.lastMessageAt = 5
          ∧ demoConv.lastMessageAt ≤ conv'.lastMessageAt
          ∧ conv'.userId = demoConv.userId ∧ conv'.title = demoConv.title)
      ∧ (∀ cid', cid' ≠ 0 → st'.getConv cid' = demoStore.getConv cid')
      ∧ st'.conversations.map Prod.fst = demoStore.conversations.map Prod.fst :=
  sendMessage_submit_spec demoStore 7 0 "hello" 5 demoConv rfl rfl (by decide)

/-- C2: for an existing conversation, every run of the Generate job returns
normally (no failure is re-raised) and appends exactly one assistant message
whose content is non-empty, whatever the provider does: success, thrown
error, or missing/empty response text. -/
theorem generateAIResponse_one_assistant_message (st : Store) (cid now : Nat)
    (conv : Conversation)
    (provider : Request → Except Thrown (Option String))
    (hconv : st.getConv cid = some conv) :
    ∃ st' content,
      generateAIResponse st cid provider now = .ok st'
      ∧ st'.messages = st.messages ++ [(st.nextId,
          { conversationId := cid, userId := conv.userId, content := content,
            role := .assistant, timestamp := now })]
      ∧ content ≠ "" := by
  unfold generateAIResponse
  dsimp only
  cases hp : provider (buildRequest ((getMessagesForAI st cid).map (fun p => p.2))) with
  | error t =>
      obtain ⟨st', hok, hmsgs, -, -, -, -⟩ :=
        saveAIMessage_ok st cid (providerFailureText t) now conv hconv
      exact ⟨st', providerFailureText t, hok, hmsgs, providerFailureText_ne_empty t⟩
  | ok content? =>
      cases content? with
      | none =>
          obtain ⟨st', hok, hmsgs, -, -, -, -⟩ :=
            saveAIMessage_ok st cid
              (providerFailureText (.jsError "No response from AI")) now conv hconv
          exact ⟨st', _, hok, hmsgs, providerFailureText_ne_empty _⟩
      | some aiResponse =>
          by_cases he : aiResponse = ""
          · subst he
            obtain ⟨st', hok, hmsgs, -, -, -, -⟩ :=
              saveAIMessage_ok st cid
                (providerFailureText (.jsError "No response from AI")) now conv hconv
            exact ⟨st', _, hok, hmsgs, providerFailureText_ne_empty _⟩
          · dsimp only
            rw [if_neg he]
            obtain ⟨st', hok, hmsgs, -, -, -, -⟩ :=
              saveAIMessage_ok st cid aiResponse now conv hconv
            rw [hok]
            exact ⟨st', aiResponse, rfl, hmsgs, he⟩

/-- C2 witness: a provider that throws a non-`Error` value still yields a
normal return and one non-empty assistant message on the demo store. -/
theorem generateAIResponse_one_assistant_message_witness :
    ∃ st' content,
      generateAIResponse demoStore 0 (fun _ => .error Thrown.nonError) 5 = .ok st'
      ∧ st'.messages = demoStore.messages ++ [(demoStore.nextId,
          { conversationId := 0, userId := demoConv.userId, content := content,
            role := .assistant, timestamp := 5 })]
      ∧ content ≠ "" :=
  generateAIResponse_one_assistant_message demoStore 0 5 demoConv
    (fun _ => .error Thrown.nonError) rfl

/-- C4: when the provider call throws an `Error`, the persisted assistant
message's text is selected by keyword match on the error's message — "rate
limit" first, then "network", else generic — and the three wordings are
pairwise distinct, so a connectivity error yields the connectivity wording
and neither of the other two. -/
theorem generateAIResponse_failure_wording (st : Store) (cid now : Nat)
    (conv : Conversation) (m : String) (hconv : st.getConv cid = some conv) :
    ∃ st' msg,
      generateAIResponse st cid (fun _ => .error (.jsError m)) now = .ok st'
      ∧ st'.messages = st.messages ++ [(st.nextId, msg)]
      ∧ msg.role = .assistant
      ∧ (strContains m "rate limit" = true →
          msg.content = "I apologize, but I\x27m experiencing technical difficulties right now. I\x27m currently handling many requests. Please try again in a moment.")
      ∧ (strContains m "rate limit" = false → strContains m "network" = true →
          msg.content = "I apologize, but I\x27m experiencing technical difficulties right now. There seems to be a connection issue. Please check your internet and try again.")
      ∧ (strContains m "rate limit" = false → strContains m "network" = false →
          msg.content = "I apologize, but I\x27m experiencing technical difficulties right now. Please try rephrasing your question or try again in a few moments.")
      ∧ "I apologize, but I\x27m experiencing technical difficulties right now. There seems to be a connection issue. Please check your internet and try again."
          ≠ "I apologize, but I\x27m experiencing technical difficulties right now. I\x27m currently handling many requests. Please try again in a moment."
      ∧ "I apologize, but I\x27m experiencing technical difficulties right now. There seems to be a connection issue. Please check your internet and try again."
          ≠ "I apologize, but I\x27m experiencing technical difficulties right now. Please try rephrasing your question or try again in a few moments." := by
  obtain ⟨st', hok, hmsgs, -, -, -, -⟩ :=
    saveAIMessage_ok st cid (providerFailureText (.jsError m)) now conv hconv
  refine ⟨st',
    { conversationId := cid, userId := conv.userId,
      content := providerFailureText (.jsError m),
      role := .assistant, timestamp := now },
    hok, hmsgs, rfl, ?_, ?_, ?_, by decide, by decide⟩
  · intro h1
    show providerFailureText (.jsError m) = _
    simp only [providerFailureText]
    rw [if_pos h1]
    decide
  · intro h1 h2
    show providerFailureText (.jsError m) = _
    simp only [providerFailureText]
    rw [if_neg (by simp [h1]), if_pos h2]
    decide
  · intro h1 h2
    show providerFailureText (.jsError m) = _
    simp only [providerFailureText]
    rw [if_neg (by simp [h1]), if_neg (by simp [h2])]
    decide

/-- C4 witness: a connectivity failure ("network timeout while fetching")
goes down the connectivity branch on the demo store. -/
theorem generateAIResponse_failure_wording_witness :
    ∃ st' msg,
      generateAIResponse demoStore 0
          (fun _ => .error (.jsError "network timeout while fetching")) 5 = .ok st'
      ∧ st'.messages = demoStore.messages ++ [(demoStore.nextId, msg)]
      ∧ msg.role = .assistant
      ∧ (strContains "network timeout while fetching" "rate limit" = true →
          msg.content = "I apologize, but I\x27m experiencing technical difficulties right now. I\x27m currently handling many requests. Please try again in a moment.")
      ∧ (strContains "network timeout while fetching" "rate limit" = false →
          strContains "network timeout while fetching" "network" = true →
          msg.content = "I apologize, but I\x27m experiencing technical difficulties right now. There seems to be a connection issue. Please check your internet and try again.")
      ∧ (strContains "network timeout while fetching" "rate limit" = false →
          strContains "network timeout while fetching" "network" = false →
          msg.content = "I apologize, but I\x27m experiencing technical difficulties right now. Please try rephrasing your question or try again in a few moments.")
      ∧ "I apologize, but I\x27m experiencing technical difficulties right now. There seems to be a connection issue. Please check your internet and try again."
          ≠ "I apologize, but I\x27m experiencing technical difficulties right now. I\x27m currently handling many requests. Please try again in a moment."
      ∧ "I apologize, but I\x27m experiencing technical difficulties right now. There seems to be a connection issue. Please check your internet and try again."
          ≠ "I apologize, but I\x27m experiencing technical difficulties right now. Please try rephrasing your question or try again in a few moments." :=
  generateAIResponse_failure_wording demoStore 0 5 demoConv
    "network timeout while fetching" rfl

/-- C5: the Generate job consults the provider only through the request built
by `buildRequest` on the conversation's ordered history, and that request is
the fixed system instruction followed by the history with roles and contents
unchanged, under model "gpt-4.1-nano", 1500 max tokens, temperature 0.7,
presence penalty 0.1 and frequency penalty 0.1. -/
theorem generateAIResponse_request (st : Store) (cid now : Nat)
    (msgs : List Message)
    (p q : Request → Except Thrown (Option String))
    (h : p (buildRequest ((getMessagesForAI st cid).map (fun x => x.2)))
       = q (buildRequest ((getMessagesForAI st cid).map (fun x => x.2)))) :
    generateAIResponse st cid p now = generateAIResponse st cid q now
    ∧ (buildRequest msgs).model = "gpt-4.1-nano"
    ∧ (buildRequest msgs).maxTokens = 1500
    ∧ (buildRequest msgs).temperature = 7 / 10
    ∧ (buildRequest msgs).presencePenalty = 1 / 10
    ∧ (buildRequest msgs).frequencyPenalty = 1 / 10
    ∧ (buildRequest msgs).messages
        = { role := "system", content := systemPrompt }
          :: msgs.map (fun mm => { role := roleString mm.role, content := mm.content }) := by
  refine ⟨?_, rfl, rfl, rfl, rfl, rfl, rfl⟩
  unfold generateAIResponse
  dsimp only
  rw [h]

/-- A one-element history used to instantiate the request-shape theorem. -/
def demoMsg : Message :=
  { conversationId := 0, userId := 7,
    content := "How do I write a thesis statement?",
    role := .user, timestamp := 2 }

/-- C5 witness: the request-shape facts instantiated at a concrete
one-message history. -/
theorem generateAIResponse_request_witness :
    generateAIResponse demoStore 0 (fun _ => .ok none) 5
        = generateAIResponse demoStore 0 (fun _ => .ok none) 5
    ∧ (buildRequest [demoMsg]).model = "gpt-4.1-nano"
    ∧ (buildRequest [demoMsg]).maxTokens = 1500
    ∧ (buildRequest [demoMsg]).temperature = 7 / 10
    ∧ (buildRequest [demoMsg]).presencePenalty = 1 / 10
    ∧ (buildRequest [demoMsg]).frequencyPenalty = 1 / 10
    ∧ (buildRequest [demoMsg]).messages
        = { role := "system", content := systemPrompt }
          :: [demoMsg].map (fun mm => { role := roleString mm.role, content := mm.content }) :=
  generateAIResponse_request demoStore 0 5 [demoMsg]
    (fun _ => .ok none) (fun _ => .ok none) rfl

/-- The store produced by the witness Submit on `demoStore`. -/
def demoStoreSent : Store :=
  { conversations := [(0, { userId := 7, title := "Essay Help", lastMessageAt := 5 })],
    messages := [(1, { conversationId := 0, userId := 7, content := "hello",
                       role := .user, timestamp := 5 })],
    nextId := 2, jobs := [0] }

/-- C8: both message writers preserve the ownership invariant (each message's
conversation exists and owns it), never edit or delete an existing message
(the old message list is a prefix of the new one), and every stored message's
role is "user" or "assistant"; `createConversation` and `generateAIResponse`
preserve the same facts. -/
theorem message_writers_preserve_invariants :
    (∀ st auth cid content now st',
        sendMessage st auth cid content now = .ok st' →
        MessagesWellFormed st →
          MessagesWellFormed st'
          ∧ st.messages <+: st'.messages
          ∧ ∀ p ∈ st'.messages, p.2.role = Role.user ∨ p.2.role = Role.assistant)
    ∧ (∀ st cid content now st',
        saveAIMessage st cid content now = .ok st' →
        MessagesWellFormed st →
          MessagesWellFormed st'
          ∧ st.messages <+: st'.messages
          ∧ ∀ p ∈ st'.messages, p.2.role = Role.user ∨ p.2.role = Role.assistant)
    ∧ (∀ st auth title now r,
        createConversation st auth title now = .ok r →
        MessagesWellFormed st →
          MessagesWellFormed r.2 ∧ r.2.messages = st.messages)
    ∧ (∀ st cid provider now st',
        generateAIResponse st cid provider now = .ok st' →
        MessagesWellFormed st →
          MessagesWellFormed st'
          ∧ st.messages <+: st'.messages
          ∧ ∀ p ∈ st'.messages, p.2.role = Role.user ∨ p.2.role = Role.assistant) := by
  have roles : ∀ (l : List (Nat × Message)) (p : Nat × Message), p ∈ l →
      p.2.role = Role.user ∨ p.2.role = Role.assistant := by
    intro l p _
    cases hr : p.2.role with
    | user => exact Or.inl rfl
    | assistant => exact Or.inr rfl
  have hsave : ∀ st cid content now st',
      saveAIMessage st cid content now = .ok st' →
      MessagesWellFormed st →
        MessagesWellFormed st' ∧ st.messages <+: st'.messages := by
    intro st cid content now st' h hwf
    obtain ⟨conv, hconv, hst'⟩ := saveAIMessage_ok_inv st cid content now st' h
    subst hst'
    exact ⟨wf_insert_patch st cid conv.userId content .assistant now conv hconv rfl hwf,
      List.prefix_append _ _⟩
  refine ⟨?_, ?_, ?_, ?_⟩
  · intro st auth cid content now st' h hwf
    obtain ⟨u, conv, -, hconv, hu, hst'⟩ :=
      sendMessage_ok_inv st auth cid content now st' h
    subst hst'
    exact ⟨wf_insert_patch st cid u content .user now conv hconv hu.symm hwf,
      List.prefix_append _ _, roles _⟩
  · intro st cid content now st' h hwf
    obtain ⟨hwf', hpre⟩ := hsave st cid content now st' h hwf
    exact ⟨hwf', hpre, roles _⟩
  · intro st auth title now r h hwf
    cases auth with
    | none => exact absurd h (by simp [createConversation])
    | some u =>
        simp only [createConversation, Except.ok.injEq] at h
        subst h
        refine ⟨?_, rfl⟩
        intro p hp
        obtain ⟨c0, hc0, hu0⟩ := hwf p hp
        exact ⟨c0, getConv_insertConversation st _ _ c0 hc0, hu0⟩
  · intro st cid provider now st' h hwf
    obtain ⟨content, hsv⟩ := generateAIResponse_ok_inv st cid provider now st' h
    obtain ⟨hwf', hpre⟩ := hsave st cid content now st' hsv hwf
    exact ⟨hwf', hpre, roles _⟩

/-- C8 witness: the invariant holds on the demo store and is preserved by the
concrete Submit that produces `demoStoreSent`. -/
theorem message_writers_preserve_invariants_witness :
    MessagesWellFormed demoStore
    ∧ MessagesWellFormed demoStoreSent
    ∧ demoStore.messages <+: demoStoreSent.messages := by
  have hwf : MessagesWellFormed demoStore := by
    intro p hp
    simp [demoStore] at hp
  obtain ⟨hwf', hpre, -⟩ :=
    message_writers_preserve_invariants.1 demoStore (some 7) 0 "hello" 5
      demoStoreSent rfl hwf
  exact ⟨hwf, hwf', hpre⟩

/-- C9: every defined mutation leaves each existing conversation present with
its `userId` and `title` unchanged — only `lastMessageAt` can differ — and no
defined operation deletes a conversation. -/
theorem conversation_fields_immutable :
    (∀ st auth cid content now st',
        sendMessage st auth cid content now = .ok st' →
        ∀ cid' c, st.getConv cid' = some c →
          ∃ c', st'.getConv cid' = some c'
            ∧ c'.userId = c.userId ∧ c'.title = c.title)
    ∧ (∀ st cid content now st',
        saveAIMessage st cid content now = .ok st' →
        ∀ cid' c, st.getConv cid' = some c →
          ∃ c', st'.getConv cid' = some c'
            ∧ c'.userId = c.userId ∧ c'.title = c.title)
    ∧ (∀ st cid provider now st',
        generateAIResponse st cid provider now = .ok st' →
        ∀ cid' c, st.getConv cid' = some c →
          ∃ c', st'.getConv cid' = some c'
            ∧ c'.userId = c.userId ∧ c'.title = c.title)
    ∧ (∀ st auth title now r,
        createConversation st auth title now = .ok r →
        ∀ cid' c, st.getConv cid' = some c →
          ∃ c', r.2.getConv cid' = some c'
            ∧ c'.userId = c.userId ∧ c'.title = c.title) := by
  have hsave : ∀ st cid content now st',
      saveAIMessage st cid content now = .ok st' →
      ∀ cid' c, st.getConv cid' = some c →
        ∃ c', st'.getConv cid' = some c'
          ∧ c'.userId = c.userId ∧ c'.title = c.title := by
    intro st cid content now st' h cid' c hc
    obtain ⟨conv, hconv, hst'⟩ := saveAIMessage_ok_inv st cid content now st' h
    subst hst'
    exact frame_insert_patch st _ cid now cid' c hc
  refine ⟨?_, hsave, ?_, ?_⟩
  · intro st auth cid content now st' h cid' c hc
    obtain ⟨u, conv, -, hconv, -, hst'⟩ :=
      sendMessage_ok_inv st auth cid content now st' h
    subst hst'
    exact frame_insert_patch st _ cid now cid' c hc
  · intro st cid provider now st' h cid' c hc
    obtain ⟨content, hsv⟩ := generateAIResponse_ok_inv st cid provider now st' h
    exact hsave st cid content now st' hsv cid' c hc
  · intro st auth title now r h cid' c hc
    cases auth with
    | none => exact absurd h (by simp [createConversation])
    | some u =>
        simp only [createConversation, Except.ok.injEq] at h
        subst h
        exact ⟨c, getConv_insertConversation st _ cid' c hc, rfl, rfl⟩

/-- C9 witness: after the concrete Submit, conversation 0 still exists with
its owner and title unchanged. -/
theorem conversation_fields_immutable_witness :
    ∃ c', demoStoreSent.getConv 0 = some c'
      ∧ c'.userId = demoConv.userId ∧ c'.title = demoConv.title :=
  conversation_fields_immutable.1 demoStore (some 7) 0 "hello" 5 demoStoreSent
    rfl 0 demoConv rfl

end StudyBuddy
